import Mathlib

/-!
Verification development for the CORD-19 data-explorer repository
(`dataLoading.py`, `dataCleaning.py`, `dataVisualization.py`, `app.py`).

The tabular data is modelled row-wise: a pandas cell is a `Val`
(either the missing value NaN/NaT, a string, or a parsed datetime), a
DataFrame is a `List Row`.  Pandas/numpy library primitives used by the
repository (`pd.to_datetime`, `fillna`, `dropna`, `value_counts`,
`str.split`, `re.findall`, `Counter`) are embedded as executable Lean
functions on these types.  Date parsing (`pd.to_datetime` with
`errors='coerce'`) is modelled on the ISO `YYYY-MM-DD` string format:
such strings parse to a date, everything else coerces to the missing
value, which is all the cleaning code observes (parse success and the
resulting year versus coercion to NaT).
-/

/-- A pandas cell: missing (NaN/NaT), a string, or a parsed datetime
(year, month, day). -/
inductive Val where
  | null : Val
  | str : String → Val
  | date : Nat → Nat → Nat → Val
  deriving DecidableEq, Repr

/-- Python `str(x)` on a cell, as used by `lambda x: len(str(x).split())`:
`str(nan) = "nan"`, strings render as themselves, timestamps render as
the ISO date. -/
def pyStr : Val → String
  | Val.null => "nan"
  | Val.str s => s
  | Val.date y m d => toString y ++ "-" ++ toString m ++ "-" ++ toString d

/-- Maximal runs of non-whitespace characters (the accumulator holds the
current run, reversed). -/
def wsTokens : List Char → List Char → List (List Char)
  | [], acc => if acc = [] then [] else [acc.reverse]
  | c :: cs, acc =>
    if c.isWhitespace then
      if acc = [] then wsTokens cs [] else acc.reverse :: wsTokens cs []
    else wsTokens cs (c :: acc)

/-- Python `len(s.split())`: number of maximal runs of non-whitespace
characters (`str.split()` with no argument drops empty pieces). -/
def countTokens (s : String) : Nat :=
  (wsTokens s.toList []).length

/-- Split a character list at every `'-'`, keeping empty pieces. -/
def splitDash : List Char → List Char → List (List Char)
  | [], acc => [acc.reverse]
  | c :: cs, acc =>
    if c = '-' then acc.reverse :: splitDash cs []
    else splitDash cs (c :: acc)

/-- Decimal digits to a number; `none` when empty or non-digit. -/
def digitsToNat (cs : List Char) : Option Nat :=
  if cs ≠ [] && cs.all Char.isDigit then
    some (cs.foldl (fun n c => 10 * n + (c.toNat - 48)) 0)
  else none

/-- Date parsing for `pd.to_datetime(..., errors='coerce')`, modelled on
the ISO `YYYY-MM-DD` format: returns `(year, month, day)` on success. -/
def parseDate (s : String) : Option (Nat × Nat × Nat) :=
  match splitDash s.toList [] with
  | [ys, ms, ds] =>
    match digitsToNat ys, digitsToNat ms, digitsToNat ds with
    | some y, some m, some d =>
      if ys.length = 4 && 1 ≤ m && m ≤ 12 && 1 ≤ d && d ≤ 31 then
        some (y, m, d)
      else none
    | _, _, _ => none
  | _ => none

/-- `pd.to_datetime(col, errors='coerce')` on one cell: missing stays
missing (NaT), an already-parsed datetime is returned unchanged, a
string either parses to a datetime or coerces to NaT. -/
def to_datetime (v : Val) : Val :=
  match v with
  | Val.null => Val.null
  | Val.str s =>
    match parseDate s with
    | some (y, m, d) => Val.date y m d
    | none => Val.null
  | Val.date y m d => Val.date y m d

/-- `col.dt.year` followed by `.fillna(2020)`: the year of a parsed
datetime, and the sentinel 2020 for NaT. -/
def year_or_2020 (v : Val) : Nat :=
  match v with
  | Val.date y _ _ => y
  | _ => 2020

/-- `col.fillna(d)` on one cell. -/
def fillna (v : Val) (d : Val) : Val :=
  if v = Val.null then d else v

/-- The word-count lambda `lambda x: len(str(x).split()) if pd.notnull(x) else 0`
from `dataCleaning.py` and `app.py`. -/
def word_count (v : Val) : Nat :=
  if v = Val.null then 0 else countTokens (pyStr v)

/-- One row of the metadata DataFrame.  The raw CSV columns are `Val`
cells; the derived columns (`publication_year`, the word counts,
`has_abstract`, `source`) also live in the row so that a cleaned frame
has the same type as a raw one (pandas adds columns to the same frame);
cleaning overwrites them unconditionally, so their incoming values are
irrelevant. -/
structure Row where
  cord_uid : Val := Val.null
  title : Val := Val.null
  abstract : Val := Val.null
  journal : Val := Val.null
  publish_time : Val := Val.null
  authors : Val := Val.null
  url : Val := Val.null
  source_x : Val := Val.null
  source : Val := Val.null
  publication_year : Nat := 0
  abstract_word_count : Nat := 0
  title_word_count : Nat := 0
  has_abstract : Bool := false
  deriving DecidableEq, Repr

namespace DataCleaning

/-- `dataCleaning.clean_data`, statement by statement:
1. `publish_time` is parsed with coercion and `publication_year` is its
   year with missing years filled by 2020;
2. `abstract_word_count` and `title_word_count` are computed from the
   (still unfilled) `abstract` and `title` columns;
3. rows with missing `title` are dropped (`dropna(subset=['title'])`);
4. missing `abstract` is filled with the empty string;
5. missing `journal` is filled with `'Unknown Journal'`;
6. `source` is `source_x` with missing values filled by `'Unknown Source'`. -/
def clean_data (df : List Row) : List Row :=
  let df1 := df.map (fun r =>
    let pt := to_datetime r.publish_time
    { r with publish_time := pt, publication_year := year_or_2020 pt })
  let df2 := df1.map (fun r =>
    { r with abstract_word_count := word_count r.abstract,
             title_word_count := word_count r.title })
  let df3 := df2.filter (fun r => !(r.title == Val.null))
  let df4 := df3.map (fun r => { r with abstract := fillna r.abstract (Val.str "") })
  let df5 := df4.map (fun r => { r with journal := fillna r.journal (Val.str "Unknown Journal") })
  df5.map (fun r => { r with source := fillna r.source_x (Val.str "Unknown Source") })

/-- The per-row effect of `clean_data` on a row that survives the
`dropna` on `title`. -/
def clean_row (r : Row) : Row :=
  let pt := to_datetime r.publish_time
  { r with publish_time := pt,
           publication_year := year_or_2020 pt,
           abstract_word_count := word_count r.abstract,
           title_word_count := word_count r.title,
           abstract := fillna r.abstract (Val.str ""),
           journal := fillna r.journal (Val.str "Unknown Journal"),
           source := fillna r.source_x (Val.str "Unknown Source") }

/-- The variable state of `clean_data`'s body: the parameter `df` and
the local `df_clean`.  `df_clean = df.copy()` gives `df_clean`
independent storage, after which every statement of the body either
rebinds `df_clean` or assigns one of its columns; none touches `df`. -/
structure ProgState where
  df : List Row
  df_clean : List Row
  deriving DecidableEq, Repr

/-- `dataCleaning.clean_data` again, but statement by statement over the
whole variable state, to make the frame condition (the input frame is
never written) visible. -/
def clean_data_trace (input : List Row) : ProgState :=
  let s1 : ProgState := { df := input, df_clean := input }
  let s2 : ProgState := { s1 with df_clean := s1.df_clean.map (fun (r : Row) =>
    let pt := to_datetime r.publish_time
    { r with publish_time := pt, publication_year := year_or_2020 pt }) }
  let s3 : ProgState := { s2 with df_clean := s2.df_clean.map (fun (r : Row) =>
    { r with abstract_word_count := word_count r.abstract,
             title_word_count := word_count r.title }) }
  let s4 : ProgState := { s3 with df_clean := s3.df_clean.filter (fun r => !(r.title == Val.null)) }
  let s5 : ProgState := { s4 with df_clean := s4.df_clean.map (fun (r : Row) =>
    { r with abstract := fillna r.abstract (Val.str "") }) }
  let s6 : ProgState := { s5 with df_clean := s5.df_clean.map (fun (r : Row) =>
    { r with journal := fillna r.journal (Val.str "Unknown Journal") }) }
  { s6 with df_clean := s6.df_clean.map (fun (r : Row) =>
    { r with source := fillna r.source_x (Val.str "Unknown Source") }) }

end DataCleaning

namespace App

/-- A DataFrame as `app.clean_data` sees it: the row data plus, for each
column whose presence the function tests with `'col' in df.columns`,
whether that column exists.  A cell of an absent column is never read. -/
structure DF where
  hasPublishTime : Bool
  hasTitle : Bool
  hasAbstract : Bool
  hasJournal : Bool
  rows : List Row
  deriving DecidableEq, Repr

/-- The `else` branch of the title handling:
`df_clean['title'] = [f"Research Paper {i}" for i in range(len(df_clean))]`. -/
def number_titles (rows : List Row) : List Row :=
  ((List.range rows.length).zip rows).map
    (fun p => { p.2 with title := Val.str ("Research Paper " ++ toString p.1) })

/-- `app.clean_data`, statement by statement:
1. if `publish_time` exists it is parsed with coercion and
   `publication_year` is its year with missing years filled by 2020,
   otherwise `publication_year` is the constant 2020;
2. if `title` exists, rows with missing `title` are dropped, otherwise a
   synthetic numbered title column is created;
3. if `abstract` exists, missing values are filled with
   `'No abstract available'` and `has_abstract` records whether the
   filled value differs from that literal, otherwise `abstract` is
   `'Sample abstract'` and `has_abstract` is `True`;
4. if `journal` exists, missing values are filled with
   `'Unknown Journal'`, otherwise `journal` is `'Sample Journal'`;
5. the word counts are computed from the (already filled) `abstract`
   and `title` columns. -/
def clean_data (df : DF) : DF :=
  let rows1 := if df.hasPublishTime then
      df.rows.map (fun r =>
        let pt := to_datetime r.publish_time
        { r with publish_time := pt, publication_year := year_or_2020 pt })
    else df.rows.map (fun r => { r with publication_year := 2020 })
  let rows2 := if df.hasTitle then rows1.filter (fun r => !(r.title == Val.null))
    else number_titles rows1
  let rows3 := if df.hasAbstract then
      rows2.map (fun r =>
        let a := fillna r.abstract (Val.str "No abstract available")
        { r with abstract := a, has_abstract := !(a == Val.str "No abstract available") })
    else rows2.map (fun r =>
      { r with abstract := Val.str "Sample abstract", has_abstract := true })
  let rows4 := if df.hasJournal then
      rows3.map (fun r => { r with journal := fillna r.journal (Val.str "Unknown Journal") })
    else rows3.map (fun r => { r with journal := Val.str "Sample Journal" })
  let rows5 := rows4.map (fun r => { r with abstract_word_count := word_count r.abstract })
  let rows6 := rows5.map (fun r => { r with title_word_count := word_count r.title })
  { hasPublishTime := df.hasPublishTime, hasTitle := true, hasAbstract := true,
    hasJournal := true, rows := rows6 }

/-- Journal vocabulary of `create_sample_data`. -/
def sample_journals : List String :=
  ["Nature", "Science", "The Lancet", "BMJ", "JAMA",
   "New England Journal of Medicine", "Cell", "PLOS One",
   "BioRxiv", "MedRxiv", "Journal of Virology"]

/-- Topic vocabulary of `create_sample_data`. -/
def sample_topics : List String :=
  ["COVID-19", "SARS-CoV-2", "pandemic", "vaccine", "transmission",
   "lockdown", "variants", "public health", "epidemiology", "treatment"]

/-- Setting vocabulary of the sample titles. -/
def sample_settings : List String := ["urban", "rural", "clinical"]

/-- Method vocabulary of the sample abstracts. -/
def sample_methods : List String :=
  ["randomized trials", "observational studies", "meta-analysis"]

/-- Finding vocabulary of the sample abstracts. -/
def sample_findings : List String :=
  ["treatment efficacy", "transmission rates", "public health impact"]

/-- Model of the `np.random` draw stream fixed by `np.random.seed(42)`:
draw `i` of the stream.  The exact values of numpy's seeded MT19937
generator are library internals; the model keeps what the repository
relies on — the stream is a fixed function of the seed, so generation
is deterministic — via a linear congruential formula seeded at 42. -/
def np_random_draw (i : Nat) : Nat :=
  (1103515245 * (42 + i) + 12345) % 2147483648

/-- `np.random.choice(xs)` fed by draw `i` of the seeded stream. -/
def pick (xs : List String) (i : Nat) : String :=
  xs.getD (np_random_draw i % xs.length) ""

/-- Zero-padded `f"{i:06d}"`. -/
def pad6 (i : Nat) : String :=
  let s := toString i
  String.mk (List.replicate (6 - s.length) '0') ++ s

/-- Gregorian leap-year test. -/
def isLeap (y : Nat) : Bool := y % 4 = 0 && (y % 100 ≠ 0 || y % 400 = 0)

/-- Days in year `y`. -/
def yearLen (y : Nat) : Nat := if isLeap y then 366 else 365

/-- Month lengths of year `y`. -/
def month_lengths (y : Nat) : List Nat :=
  [31, if isLeap y then 29 else 28, 31, 30, 31, 30, 31, 31, 30, 31, 30, 31]

/-- Convert a day offset from Jan 1 of year `y` to (year, day of year),
with fuel bounding the number of year steps. -/
def peelYears : Nat → Nat → Nat → Nat × Nat
  | 0, y, d => (y, d)
  | fuel + 1, y, d =>
    if d < yearLen y then (y, d) else peelYears fuel (y + 1) (d - yearLen y)

/-- Convert a day-of-year to (month, zero-based day of month). -/
def peelMonths : List Nat → Nat → Nat → Nat × Nat
  | [], m, d => (m, d)
  | len :: rest, m, d =>
    if d < len then (m, d) else peelMonths rest (m + 1) (d - len)

/-- `pd.date_range('2020-01-01', '2022-12-31', periods=size)` at
position `i`, modelled at day granularity: evenly spaced day offsets
across the 1095-day span starting at 2020-01-01. -/
def date_range_cell (size i : Nat) : Val :=
  let off := if size ≤ 1 then 0 else i * 1095 / (size - 1)
  let yd := peelYears 10 2020 off
  let md := peelMonths (month_lengths yd.1) 1 yd.2
  Val.date yd.1 md.1 (md.2 + 1)

/-- `app.create_sample_data(size)`: row `i` of the generated frame.  The
title comprehension consumes two stream draws per row, the abstract
comprehension then three per row, the journal column one per row, in
the order the comprehensions run; `cord_uid`, `publish_time`, `authors`
and `url` are deterministic in `i`.  The derived columns do not exist
in the generated frame; they hold their `Row` defaults and are
overwritten by cleaning. -/
def create_sample_data (size : Nat) : List Row :=
  (List.range size).map (fun i =>
    { cord_uid := Val.str ("uid_" ++ pad6 i),
      title := Val.str ("Study of " ++ pick sample_topics (2 * i) ++ " in "
        ++ pick sample_settings (2 * i + 1) ++ " settings"),
      abstract := Val.str ("This research investigates "
        ++ pick sample_topics (2 * size + 3 * i) ++ " through "
        ++ pick sample_methods (2 * size + 3 * i + 1)
        ++ ". Results show significant findings in "
        ++ pick sample_findings (2 * size + 3 * i + 2) ++ "."),
      journal := Val.str (pick sample_journals (5 * size + i)),
      publish_time := date_range_cell size i,
      authors := Val.str ("Author_" ++ toString i ++ "_A, Author_"
        ++ toString i ++ "_B, Author_" ++ toString i ++ "_C"),
      url := Val.str ("https://example.com/paper/" ++ toString i) })

/-- `app.load_data`: `pathExists` is the result of the
`os.path.exists(data_path)` test and `realData` the frame
`pd.read_csv` would produce; on a missing file the function returns the
sample frame of size 500 and the `is_sample_data` flag `true`. -/
def load_data (pathExists : Bool) (realData : DF) : DF × Bool :=
  if pathExists then (realData, false)
  else ({ hasPublishTime := true, hasTitle := true, hasAbstract := true,
          hasJournal := true, rows := create_sample_data 500 }, true)

/-- A word character of the regex `\b[a-zA-Z]+\b`'s boundary test:
`[A-Za-z0-9_]`. -/
def isWordChar (c : Char) : Bool := c.isAlpha || c.isDigit || c = '_'

/-- Maximal runs of word characters (the accumulator holds the current
run, reversed). -/
def wordRuns : List Char → List Char → List (List Char)
  | [], acc => if acc = [] then [] else [acc.reverse]
  | c :: cs, acc =>
    if isWordChar c then wordRuns cs (c :: acc)
    else if acc = [] then wordRuns cs [] else acc.reverse :: wordRuns cs []

/-- `re.findall(r'\b[a-zA-Z]+\b', s)`: a match must start and end at a
word boundary, so it covers a whole maximal word-character run, and
`[a-zA-Z]+` requires that run to be all ASCII letters; runs containing
digits or underscores yield no token. -/
def findall_letters (s : String) : List String :=
  ((wordRuns s.toList []).filter (fun run => run.all Char.isAlpha)).map
    (fun run => String.mk run)

/-- First-occurrence-ordered distinct elements (the key order of a
Python `dict` or `Counter`); `seen` holds the keys already emitted. -/
def dedupKeys {α : Type} [DecidableEq α] : List α → List α → List α
  | [], _ => []
  | x :: xs, seen =>
    if x ∈ seen then dedupKeys xs seen else x :: dedupKeys xs (x :: seen)

/-- `collections.Counter(xs)` as an association list: each distinct
element in insertion order, paired with its number of occurrences. -/
def counter {α : Type} [DecidableEq α] (xs : List α) : List (α × Nat) :=
  (dedupKeys xs []).map (fun k => (k, xs.count k))

/-- Python `str.lower()` (ASCII case folding). -/
def lowerStr (s : String) : String := String.mk (s.toList.map Char.toLower)

/-- `' '.join(df['title'].astype(str))`. -/
def join_titles (df : List Row) : String :=
  String.mk (List.intercalate [' '] (df.map (fun r => (pyStr r.title).toList)))

/-- The stop-word set of `display_text_analysis`. -/
def stop_words : List String :=
  ["the", "and", "of", "in", "to", "a", "for", "with", "on", "by",
   "as", "an", "from", "at", "that", "is", "this", "are", "be", "was"]

/-- The word-frequency mapping built by `display_text_analysis`: join
the titles, lowercase, extract letter tokens, count with `Counter`,
then keep entries whose word is neither a stop word nor of length ≤ 2
(the dict comprehension preserves the `Counter`'s key order). -/
def text_frequency (df : List Row) : List (String × Nat) :=
  (counter (findall_letters (lowerStr (join_titles df)))).filter
    (fun p => !(stop_words.contains p.1) && decide (2 < p.1.length))

/-- The descending-count order used by `Series.value_counts()`. -/
def countGe (a b : Val × Nat) : Prop := b.2 ≤ a.2

instance : DecidableRel countGe := fun _ b => Nat.decLe b.2 _

instance : IsTotal (Val × Nat) countGe :=
  ⟨fun a b => (Nat.le_total a.2 b.2).symm⟩

instance : IsTrans (Val × Nat) countGe :=
  ⟨fun _ _ _ h1 h2 => Nat.le_trans h2 h1⟩

/-- `Series.value_counts()`: occurrence counts of the distinct non-null
values, sorted by descending count (the order of equal-count entries is
unspecified in pandas; the model sorts stably). -/
def value_counts (xs : List Val) : List (Val × Nat) :=
  List.insertionSort countGe (counter (xs.filter (fun v => !(v == Val.null))))

/-- `df['journal'].value_counts().head(k)` from
`display_journal_analysis` (and `prepare_analysis_data`, `k = 20`). -/
def top_journals (df : List Row) (k : Nat) : List (Val × Nat) :=
  (value_counts (df.map (fun r => r.journal))).take k

end App

/-- Example raw row: everything present, ISO-parseable date. -/
def rowFull : Row :=
  { title := Val.str "A Study of Vaccines", abstract := Val.str "We study vaccines.",
    journal := Val.str "Nature", publish_time := Val.str "2021-05-10",
    authors := Val.str "Doe J.", source_x := Val.str "PMC" }

/-- Example raw row: missing abstract and journal, unparseable date. -/
def rowNoAbstract : Row :=
  { title := Val.str "Short Title", publish_time := Val.str "not a date" }

/-- Example raw row with an empty-string (non-null) title. -/
def rowEmptyTitle : Row := { title := Val.str "" }

/-- Example raw row whose abstract is literally the sentinel text. -/
def rowLiteralSentinel : Row :=
  { title := Val.str "Edge Case", abstract := Val.str "No abstract available" }

/-- Example raw row with the C6 title. -/
def rowCovid : Row :=
  { title := Val.str "The COVID-19 Pandemic and the Vaccine",
    journal := Val.str "Nature" }

/-- Example dataset with journal counts Nature 5, Cell 5, PLOS One 2. -/
def journalExampleDF : List Row :=
  List.replicate 5 ({ journal := Val.str "Nature", title := Val.str "n" } : Row)
    ++ List.replicate 5 ({ journal := Val.str "Cell", title := Val.str "c" } : Row)
    ++ List.replicate 2 ({ journal := Val.str "PLOS One", title := Val.str "p" } : Row)

theorem clean_data_eq (df : List Row) :
    DataCleaning.clean_data df =
      (df.filter (fun r => !(r.title == Val.null))).map DataCleaning.clean_row := by
  simp only [DataCleaning.clean_data, List.map_map, List.filter_map]
  rfl

theorem to_datetime_idem (v : Val) : to_datetime (to_datetime v) = to_datetime v := by
  cases v with
  | null => rfl
  | date y m d => rfl
  | str s =>
    cases h : parseDate s with
    | none => simp [to_datetime, h]
    | some t =>
      obtain ⟨y, m, d⟩ := t
      simp [to_datetime, h]

theorem fillna_fillna (v d : Val) : fillna (fillna v d) d = fillna v d := by
  by_cases h : v = Val.null <;> simp [fillna, h]

theorem word_count_fillna_empty (v : Val) :
    word_count (fillna v (Val.str "")) = word_count v := by
  by_cases h : v = Val.null
  · subst h
    decide
  · simp [fillna, h]

theorem clean_row_idem (r : Row) :
    DataCleaning.clean_row (DataCleaning.clean_row r) = DataCleaning.clean_row r := by
  simp [DataCleaning.clean_row, Row.mk.injEq, to_datetime_idem, fillna_fillna,
    word_count_fillna_empty]

/-- C1: every Record of a Dataset cleaned by `clean_data` has a non-null
title, a non-null abstract and a non-null journal, and the derived word
counts are non-negative. -/
theorem cleaned_record_invariant (df : List Row) (c : Row)
    (hc : c ∈ DataCleaning.clean_data df) :
    c.title ≠ Val.null ∧ c.abstract ≠ Val.null ∧ c.journal ≠ Val.null ∧
      0 ≤ c.abstract_word_count ∧ 0 ≤ c.title_word_count := by
  rw [clean_data_eq] at hc
  rcases List.mem_map.mp hc with ⟨r, hr, rfl⟩
  have ht : ¬r.title = Val.null := by
    have hmem := List.of_mem_filter hr
    simpa using hmem
  refine ⟨?_, ?_, ?_, Nat.zero_le _, Nat.zero_le _⟩
  · simpa [DataCleaning.clean_row] using ht
  · by_cases h : r.abstract = Val.null <;>
      simp [DataCleaning.clean_row, fillna, h]
  · by_cases h : r.journal = Val.null <;>
      simp [DataCleaning.clean_row, fillna, h]

theorem cleaned_record_invariant_witness :
    (DataCleaning.clean_row rowNoAbstract
        ∈ DataCleaning.clean_data [rowFull, rowNoAbstract]) ∧
      ((DataCleaning.clean_row rowNoAbstract).title ≠ Val.null ∧
        (DataCleaning.clean_row rowNoAbstract).abstract ≠ Val.null ∧
        (DataCleaning.clean_row rowNoAbstract).journal ≠ Val.null ∧
        0 ≤ (DataCleaning.clean_row rowNoAbstract).abstract_word_count ∧
        0 ≤ (DataCleaning.clean_row rowNoAbstract).title_word_count) :=
  ⟨by decide, cleaned_record_invariant [rowFull, rowNoAbstract] _ (by decide)⟩

/-- C2: cleaning is idempotent — running `clean_data` on an already
cleaned Dataset returns it unchanged (same rows, same columns, same
values). -/
theorem clean_data_idempotent (df : List Row) :
    DataCleaning.clean_data (DataCleaning.clean_data df)
      = DataCleaning.clean_data df := by
  rw [clean_data_eq df, clean_data_eq, List.filter_map, List.map_map]
  have hp : ((fun r => !(r.title == Val.null)) ∘ DataCleaning.clean_row)
      = (fun r => !(r.title == Val.null)) := rfl
  rw [hp, List.filter_filter]
  have hcc : (DataCleaning.clean_row ∘ DataCleaning.clean_row)
      = DataCleaning.clean_row := funext clean_row_idem
  rw [hcc]
  simp only [Bool.and_self]

/-- C9: `clean_data` never mutates its input frame: after the body runs
(`clean_data_trace`), the caller's `df` holds exactly the rows and
values it held before the call, and the returned `df_clean` is the
cleaned Dataset. -/
theorem clean_data_no_mutation (input : List Row) :
    (DataCleaning.clean_data_trace input).df = input ∧
      (DataCleaning.clean_data_trace input).df_clean
        = DataCleaning.clean_data input :=
  ⟨rfl, rfl⟩

/-- C3 counterexample: a Dataset whose single row has the empty string
as title.  `dropna` keeps that row, so no row is dropped, while the
count of rows with null-or-empty title is 1 — the claimed equality
fails. -/
theorem dropped_count_counterexample :
    ¬ ([rowEmptyTitle].length
          - (DataCleaning.clean_data [rowEmptyTitle]).length
        = ([rowEmptyTitle].filter
            (fun r => r.title == Val.null || r.title == Val.str "")).length) := by
  decide

/-- C3 (amended): the number of rows removed by `clean_data` equals the
number of raw rows whose title is null (empty-string titles are kept),
and the output consists of exactly the non-null-title rows, cleaned, in
order. -/
theorem dropped_rows_are_null_titles (df : List Row) :
    df.length - (DataCleaning.clean_data df).length
        = (df.filter (fun r => r.title == Val.null)).length ∧
      DataCleaning.clean_data df
        = (df.filter (fun r => !(r.title == Val.null))).map
            DataCleaning.clean_row := by
  refine ⟨?_, clean_data_eq df⟩
  have key : ∀ l : List Row,
      (l.filter (fun r => !(r.title == Val.null))).length
        + (l.filter (fun r => r.title == Val.null)).length = l.length := by
    intro l
    induction l with
    | nil => rfl
    | cons r rs ih =>
      by_cases h : r.title = Val.null <;>
        simp [List.filter_cons, h] <;> omega
  have hlen : (DataCleaning.clean_data df).length
      = (df.filter (fun r => !(r.title == Val.null))).length := by
    rw [clean_data_eq, List.length_map]
  rw [hlen]
  have hk := key df
  omega

/-- C4: for a raw row that survives cleaning, a missing `publish_time`
or one that fails date parsing yields the sentinel
`publication_year = 2020` in its cleaned Record, while a parse success
yields the parsed date's year. -/
theorem publication_year_policy (df : List Row) (r : Row)
    (hr : r ∈ df) (ht : r.title ≠ Val.null) :
    DataCleaning.clean_row r ∈ DataCleaning.clean_data df ∧
      (r.publish_time = Val.null →
        (DataCleaning.clean_row r).publication_year = 2020) ∧
      (∀ s, r.publish_time = Val.str s → parseDate s = none →
        (DataCleaning.clean_row r).publication_year = 2020) ∧
      (∀ s y m d, r.publish_time = Val.str s → parseDate s = some (y, m, d) →
        (DataCleaning.clean_row r).publication_year = y) := by
  refine ⟨?_, ?_, ?_, ?_⟩
  · rw [clean_data_eq]
    refine List.mem_map.mpr ⟨r, ?_, rfl⟩
    refine List.mem_filter.mpr ⟨hr, ?_⟩
    simpa using ht
  · intro h
    simp [DataCleaning.clean_row, h, to_datetime, year_or_2020]
  · intro s hs hparse
    simp [DataCleaning.clean_row, hs, to_datetime, hparse, year_or_2020]
  · intro s y m d hs hparse
    simp [DataCleaning.clean_row, hs, to_datetime, hparse, year_or_2020]

theorem publication_year_policy_witness :
    (rowFull ∈ [rowFull, rowNoAbstract] ∧ rowFull.title ≠ Val.null ∧
      rowFull.publish_time = Val.str "2021-05-10" ∧
      parseDate "2021-05-10" = some (2021, 5, 10) ∧
      (DataCleaning.clean_row rowFull).publication_year = 2021) ∧
    (rowNoAbstract ∈ [rowFull, rowNoAbstract] ∧
      rowNoAbstract.title ≠ Val.null ∧
      rowNoAbstract.publish_time = Val.str "not a date" ∧
      parseDate "not a date" = none ∧
      (DataCleaning.clean_row rowNoAbstract).publication_year = 2020) :=
  ⟨⟨by decide, by decide, by decide, by decide,
      (publication_year_policy [rowFull, rowNoAbstract] rowFull (by decide)
        (by decide)).2.2.2 "2021-05-10" 2021 5 10 (by decide) (by decide)⟩,
    ⟨by decide, by decide, by decide, by decide,
      (publication_year_policy [rowFull, rowNoAbstract] rowNoAbstract (by decide)
        (by decide)).2.2.1 "not a date" (by decide) (by decide)⟩⟩

/-- C7: in a cleaned Dataset the word counts of every Record equal the
whitespace-token counts of its (possibly sentinel) abstract and title
text, and a surviving row whose raw abstract was missing gets
`abstract_word_count = 0`, the token count of the empty sentinel
string. -/
theorem word_count_spec (df : List Row) :
    (∀ c ∈ DataCleaning.clean_data df,
        c.abstract_word_count = countTokens (pyStr c.abstract) ∧
          c.title_word_count = countTokens (pyStr c.title)) ∧
      (∀ r ∈ df, r.title ≠ Val.null → r.abstract = Val.null →
        DataCleaning.clean_row r ∈ DataCleaning.clean_data df ∧
          (DataCleaning.clean_row r).abstract_word_count = 0) := by
  constructor
  · intro c hc
    rw [clean_data_eq] at hc
    rcases List.mem_map.mp hc with ⟨r, _, rfl⟩
    constructor
    · by_cases h : r.abstract = Val.null <;>
        simp [DataCleaning.clean_row, word_count, fillna, h]
      decide
    · have ht : ¬r.title = Val.null := by
        have hmem := List.of_mem_filter (by assumption)
        simpa using hmem
      simp [DataCleaning.clean_row, word_count, ht]
  · intro r hr ht ha
    constructor
    · rw [clean_data_eq]
      refine List.mem_map.mpr ⟨r, List.mem_filter.mpr ⟨hr, by simpa using ht⟩, rfl⟩
    · simp [DataCleaning.clean_row, word_count, ha]

theorem word_count_spec_witness :
    DataCleaning.clean_row rowNoAbstract
        ∈ DataCleaning.clean_data [rowNoAbstract] ∧
      (DataCleaning.clean_row rowNoAbstract).abstract_word_count = 0 :=
  (word_count_spec [rowNoAbstract]).2 rowNoAbstract (by decide) (by decide)
    (by decide)

/-- C5: on a nonexistent input path `load_data` returns the synthetic
Dataset of the configured sample size (500 records, all four schema
columns present) with the provenance flag set to synthetic, the
generated Dataset has exactly `size` records for every requested size,
and generation is deterministic: with the seed fixed by
`np.random.seed(42)`, the same size always yields the identical
Dataset. -/
theorem load_data_fallback :
    (∀ realData : App.DF,
        App.load_data false realData
          = ({ hasPublishTime := true, hasTitle := true, hasAbstract := true,
               hasJournal := true, rows := App.create_sample_data 500 }, true)) ∧
      (∀ size : Nat, (App.create_sample_data size).length = size) ∧
      (∀ size : Nat, App.create_sample_data size = App.create_sample_data size) := by
  refine ⟨fun _ => rfl, fun size => ?_, fun _ => rfl⟩
  simp [App.create_sample_data]

/-- C6: on a cleaned Dataset whose single title is
`"The COVID-19 Pandemic and the Vaccine"`, the text-frequency view
(letters-only tokens of the lowercased text, stop words and tokens of
length ≤ 2 removed) is exactly `{covid: 1, pandemic: 1, vaccine: 1}`. -/
theorem text_frequency_example :
    App.text_frequency
        (App.clean_data
          { hasPublishTime := true, hasTitle := true, hasAbstract := true,
            hasJournal := true, rows := [rowCovid] }).rows
      = [("covid", 1), ("pandemic", 1), ("vaccine", 1)] := by
  decide

/-- C8: the journal view lists distinct journals with their Record
counts, in descending order of count, truncated to the caller's top-K;
on the example Dataset with counts Nature 5, Cell 5, PLOS One 2 and
K = 3 it returns the two count-5 journals (in either order) followed by
(PLOS One, 2). -/
theorem journal_view_spec :
    (∀ (df : List Row) (k : Nat),
        (App.top_journals df k).Pairwise App.countGe ∧
          (App.top_journals df k).length
            = min k (App.dedupKeys
                ((df.map (fun r => r.journal)).filter
                  (fun v => !(v == Val.null))) []).length ∧
          ∀ p ∈ App.top_journals df k,
            p.2 = ((df.map (fun r => r.journal)).filter
                (fun v => !(v == Val.null))).count p.1) ∧
      (App.top_journals journalExampleDF 3
          = [(Val.str "Nature", 5), (Val.str "Cell", 5), (Val.str "PLOS One", 2)]
        ∨ App.top_journals journalExampleDF 3
            = [(Val.str "Cell", 5), (Val.str "Nature", 5),
                (Val.str "PLOS One", 2)]) := by
  constructor
  · intro df k
    refine ⟨?_, ?_, ?_⟩
    · have hs : (App.value_counts (df.map (fun r => r.journal))).Pairwise
          App.countGe :=
        List.sorted_insertionSort App.countGe _
      exact hs.sublist (List.take_sublist _ _)
    · simp [App.top_journals, App.value_counts, App.counter]
    · intro p hp
      have hp1 : p ∈ App.value_counts (df.map (fun r => r.journal)) :=
        List.mem_of_mem_take hp
      have hp2 : p ∈ App.counter
          ((df.map (fun r => r.journal)).filter (fun v => !(v == Val.null))) :=
        (List.mem_insertionSort App.countGe).mp hp1
      rcases List.mem_map.mp hp2 with ⟨key, _, rfl⟩
      rfl
  · left
    decide

theorem journal_view_spec_witness :
    ((Val.str "PLOS One", 2) ∈ App.top_journals journalExampleDF 3) ∧
      (Val.str "PLOS One", 2).2
        = ((journalExampleDF.map (fun r => r.journal)).filter
            (fun v => !(v == Val.null))).count (Val.str "PLOS One", 2).1 :=
  ⟨by decide,
    (journal_view_spec.1 journalExampleDF 3).2.2 (Val.str "PLOS One", 2)
      (by decide)⟩

/-- C10: when the input frame has an `abstract` column, `app.clean_data`
sets `has_abstract` to true exactly when the filled abstract differs
from the literal `'No abstract available'`; in particular a Record
whose abstract equals that literal is classified as having no
abstract. -/
theorem has_abstract_spec (df : App.DF) (h : df.hasAbstract = true) :
    (∀ c ∈ (App.clean_data df).rows,
        (c.has_abstract = true ↔ c.abstract ≠ Val.str "No abstract available")) ∧
      (∀ c ∈ (App.clean_data df).rows,
        c.abstract = Val.str "No abstract available" → c.has_abstract = false) := by
  have key : ∀ c ∈ (App.clean_data df).rows,
      c.has_abstract = !(c.abstract == Val.str "No abstract available") := by
    intro c hc
    cases hP : df.hasPublishTime <;> cases hT : df.hasTitle <;>
      cases hJ : df.hasJournal <;>
      simp only [App.clean_data, h, hP, hT, hJ, if_true, if_false,
        Bool.false_eq_true, Bool.true_eq_false, ite_true, ite_false,
        List.map_map, List.mem_map, Function.comp] at hc <;>
      (obtain ⟨b, hb, rfl⟩ := hc; rfl)
  constructor
  · intro c hc
    rw [key c hc]
    constructor
    · intro hb heq
      rw [heq] at hb
      simp at hb
    · intro hne
      simp [hne]
  · intro c hc heq
    rw [key c hc, heq]
    simp

theorem has_abstract_spec_witness :
    ({ hasPublishTime := true, hasTitle := true, hasAbstract := true,
        hasJournal := true, rows := [rowLiteralSentinel] } : App.DF).hasAbstract
        = true ∧
      ({ title := Val.str "Edge Case",
          abstract := Val.str "No abstract available",
          journal := Val.str "Unknown Journal", publication_year := 2020,
          abstract_word_count := 3, title_word_count := 2,
          has_abstract := false } : Row)
        ∈ (App.clean_data
            { hasPublishTime := true, hasTitle := true, hasAbstract := true,
              hasJournal := true, rows := [rowLiteralSentinel] }).rows ∧
      ({ title := Val.str "Edge Case",
          abstract := Val.str "No abstract available",
          journal := Val.str "Unknown Journal", publication_year := 2020,
          abstract_word_count := 3, title_word_count := 2,
          has_abstract := false } : Row).has_abstract = false :=
  ⟨rfl, by decide,
    (has_abstract_spec
        { hasPublishTime := true, hasTitle := true, hasAbstract := true,
          hasJournal := true, rows := [rowLiteralSentinel] } rfl).2
      _ (by decide) (by decide)⟩
